import Mathlib

/-!
Shallow embedding of `src/app_rodamientos.py` (grease selector for rolling
bearings) and verification of the frozen claims about its calculation engine.

The Python source computes with IEEE floats; here the arithmetic is embedded
over exact ordered fields (ℚ for the computable parts, ℝ where the empirical
power law `DN ** 0.23` appears).  Python's `ZeroDivisionError` on `x / 0.0`
is modelled by an `Option`/`Except` result, and `np.inf` in the threshold
table is modelled by `none`.
-/

namespace AppRodamientos

/-- Keys of the source's `LOAD_FACTORS` dict: `"Baja"`, `"Media"`, `"Alta"`. -/
inductive Carga
  | Baja
  | Media
  | Alta
deriving DecidableEq

/-- Source line 29: `LOAD_FACTORS = {"Baja": 1.0, "Media": 1.2, "Alta": 1.5}`. -/
def LOAD_FACTORS : Carga → ℚ
  | .Baja => 1.0
  | .Media => 1.2
  | .Alta => 1.5

/-- Keys of the source's `pos_factors` dict. -/
inductive Posicion
  | Horizontal
  | Vertical
deriving DecidableEq

/-- Source line 39: `pos_factors = {"Horizontal": 1.0, "Vertical": 0.75}`. -/
def pos_factors : Posicion → ℚ
  | .Horizontal => 1.0
  | .Vertical => 0.75

/-- Source lines 48-53: `NLGI_THRESHOLDS = [(80,"3"),(160,"2"),(240,"1"),(np.inf,"0")]`.
`np.inf` is modelled by `none`. -/
def NLGI_THRESHOLDS : List (Option ℚ × String) :=
  [(some 80, "3"), (some 160, "2"), (some 240, "1"), (none, "0")]

/-- Source lines 58-62. -/
def THICKENER_OPTIONS : List String :=
  ["Complejo de litio", "Sulfonato de calcio complejo", "Poliurea"]

/-- Source line 23: `A = 0.7` (constant of the viscosity power law). -/
def A : ℝ := 0.7

/-- Source line 24: `B = 0.23` (exponent of the viscosity power law). -/
def B : ℝ := 0.23

/-- Source lines 78-80: `calc_Dm(d, D)` returns `(d + D) / 2`. -/
def calc_Dm {α : Type} [LinearOrderedField α] (d D : α) : α :=
  (d + D) / 2

/-- Source lines 82-84: `calc_DN(n, Dm)` returns `n * Dm`. -/
def calc_DN {α : Type} [LinearOrderedField α] (n Dm : α) : α :=
  n * Dm

/-- Source lines 86-88: `calc_base_viscosity(DN)` returns `A * (DN ** B)`. -/
noncomputable def calc_base_viscosity (DN : ℝ) : ℝ :=
  A * DN ^ B

/-- Source lines 90-92: `adjust_for_load(visc40, carga)` returns
`visc40 * LOAD_FACTORS[carga]`. -/
def adjust_for_load {α : Type} [LinearOrderedField α] (visc40 : α) (carga : Carga) : α :=
  visc40 * ((LOAD_FACTORS carga : ℚ) : α)

/-- Python's comparison `Ks <= threshold` against an entry of `NLGI_THRESHOLDS`;
`none` stands for `np.inf`, for which the comparison is always true. -/
def thrLE {α : Type} [LinearOrderedField α] [∀ a b : α, Decidable (a ≤ b)]
    (Ks : α) : Option ℚ → Bool
  | none => true
  | some t => decide (Ks ≤ (t : α))

/-- The `for threshold, grade in NLGI_THRESHOLDS` loop of `select_NLGI`
(source lines 97-99), with the `return "2"` fallback of line 100 for an
exhausted list. -/
def walkNLGI {α : Type} [LinearOrderedField α] [∀ a b : α, Decidable (a ≤ b)]
    (Ks : α) : List (Option ℚ × String) → String
  | [] => "2"
  | (t, g) :: rest => if thrLE Ks t then g else walkNLGI Ks rest

/-- Source lines 94-100: `select_NLGI(DN, visc40)` computes `Ks = DN / visc40`
and walks `NLGI_THRESHOLDS`.  Python raises `ZeroDivisionError` when
`visc40 == 0` (there is no guard in the source); that crash is modelled as
`none`. -/
def select_NLGI {α : Type} [LinearOrderedField α] [DecidableEq α]
    [∀ a b : α, Decidable (a ≤ b)] (DN visc40 : α) : Option (String × α) :=
  if visc40 = 0 then none
  else
    let Ks := DN / visc40
    some (walkNLGI Ks NLGI_THRESHOLDS, Ks)

/-- Source lines 102-106: `select_thickener(amb)` tests
`"Agua" in amb or "Vibración" in amb`. -/
def select_thickener (amb : List String) : String :=
  if "Agua" ∈ amb ∨ "Vibración" ∈ amb then "Sulfonato de calcio complejo"
  else "Complejo de litio"

/-- Python's `int()` applied to a float truncates toward zero. -/
def pyInt (q : ℚ) : ℤ :=
  if 0 ≤ q then ⌊q⌋ else ⌈q⌉

/-- Source lines 167 and 182:
`interval = int((2000 / LOAD_FACTORS[carga]) * pos_factors[posicion])`. -/
def relubrication_interval (carga : Carga) (posicion : Posicion) : ℤ :=
  pyInt ((2000 / LOAD_FACTORS carga) * pos_factors posicion)

/-- Python runtime errors that the calculation blocks of `main()` can raise. -/
inductive PyErr
  | typeError
  | nameError
  | zeroDivisionError
deriving DecidableEq

/-- Source line 163 writes `adjust_for_load(visc40, carga)(visc40, carga)`:
the first call returns a float, and applying call syntax to a float raises
`TypeError: float object is not callable` in Python, whatever the arguments. -/
def callFloat (f : ℝ) (x : ℝ) (c : Carga) : Except PyErr ℝ :=
  Except.error PyErr.typeError

/-- Source line 170 reads the name `note_low_DN`, which is bound nowhere in
the module: evaluating it raises `NameError`. -/
def note_low_DN_value : Except PyErr Bool :=
  Except.error PyErr.nameError

/-- The derived outputs of one run of a "Calcular" block (source lines
157-167 and 175-182): everything later code only displays or prints. -/
structure Results where
  Dm : ℝ
  DN : ℝ
  visc40 : ℝ
  visc_corr : ℝ
  NLGI_Ks : Option (String × ℝ)
  recommended : String
  interval : ℤ

/-- The first `if st.button("Calcular")` block (source lines 155-171),
statement by statement: the doubled call of line 163 and the undefined
`note_low_DN` of line 170 are kept as in the source.  A raised Python
exception is an `Except.error`. -/
noncomputable def calc_block_first (rpm d D : ℝ) (carga : Carga)
    (posicion : Posicion) (ambs : List String) : Except PyErr Results := do
  let Dm := calc_Dm d D
  let DN := calc_DN rpm Dm
  let visc40 := calc_base_viscosity DN
  let visc_corr ← callFloat (adjust_for_load visc40 carga) visc40 carga
  let nlgi ← match select_NLGI DN visc40 with
    | none => Except.error PyErr.zeroDivisionError
    | some p => Except.ok p
  let recommended := select_thickener ambs
  let interval := relubrication_interval carga posicion
  let _note ← note_low_DN_value
  return { Dm := Dm, DN := DN, visc40 := visc40, visc_corr := visc_corr,
           NLGI_Ks := some nlgi, recommended := recommended, interval := interval }

/-- The second `if st.button("Calcular")` block (source lines 173-191).
`tipo` and `temp` are taken as arguments because the block's display and PDF
code reads them, but no computed value depends on them.  `select_NLGI` is
`none` exactly when Python would raise `ZeroDivisionError`. -/
noncomputable def calc_results (tipo : String) (temp : ℝ) (rpm d D : ℝ)
    (carga : Carga) (posicion : Posicion) (ambs : List String) : Results :=
  let Dm := calc_Dm d D
  let DN := calc_DN rpm Dm
  let visc40 := calc_base_viscosity DN
  { Dm := Dm, DN := DN, visc40 := visc40,
    visc_corr := adjust_for_load visc40 carga,
    NLGI_Ks := select_NLGI DN visc40,
    recommended := select_thickener ambs,
    interval := relubrication_interval carga posicion }

/-- Numeric value of an NLGI grade string, for stating monotonicity. -/
def NLGI_grade_num : String → ℕ
  | "3" => 3
  | "2" => 2
  | "1" => 1
  | _ => 0

/-- Unfolding the threshold walk over the concrete `NLGI_THRESHOLDS` list:
first-match semantics over ascending bounds 80, 160, 240, ∞. -/
lemma walkNLGI_characterization {α : Type} [LinearOrderedField α]
    [∀ a b : α, Decidable (a ≤ b)] (Ks : α) :
    walkNLGI Ks NLGI_THRESHOLDS =
      if Ks ≤ 80 then "3" else if Ks ≤ 160 then "2" else if Ks ≤ 240 then "1" else "0" := by
  simp only [NLGI_THRESHOLDS, walkNLGI, thrLE, decide_eq_true_eq, Rat.cast_ofNat,
    if_true]

/-- With a nonzero divisor, `select_NLGI` succeeds and returns the walked
grade together with `Ks = DN / visc40`. -/
lemma select_NLGI_pos {α : Type} [LinearOrderedField α] [DecidableEq α]
    [∀ a b : α, Decidable (a ≤ b)] (DN v : α) (hv : v ≠ 0) :
    select_NLGI DN v = some (walkNLGI (DN / v) NLGI_THRESHOLDS, DN / v) := by
  simp [select_NLGI, hv]

/-- The function `select_NLGI` fails (Python `ZeroDivisionError`) exactly
when `visc40 = 0`. -/
lemma select_NLGI_eq_none_iff {α : Type} [LinearOrderedField α] [DecidableEq α]
    [∀ a b : α, Decidable (a ≤ b)] (DN v : α) :
    select_NLGI DN v = none ↔ v = 0 := by
  by_cases hv : v = 0 <;> simp [select_NLGI, hv]

/-- Python evaluates `0.7 * 0 ** 0.23` to `0.0`; the same over ℝ. -/
lemma calc_base_viscosity_zero : calc_base_viscosity 0 = 0 := by
  norm_num [calc_base_viscosity, A, B, Real.zero_rpow]

/-- Bridge from the real power to integer powers:
`(105000 ** 0.23) ** 100 = 105000 ** 23`. -/
lemma pow100_eq : ((105000:ℝ) ^ B) ^ (100:ℕ) = (105000:ℝ) ^ (23:ℕ) := by
  have h0 : (0:ℝ) ≤ 105000 := by norm_num
  rw [← Real.rpow_natCast ((105000:ℝ) ^ B) 100, ← Real.rpow_mul h0]
  rw [← Real.rpow_natCast (105000:ℝ) 23]
  norm_num [B]

/-- Lower bound on the power-law factor: `14.28 < 105000 ** 0.23`. -/
lemma rpow_105000_lb : (14.28:ℝ) < (105000:ℝ) ^ B := by
  have hy : (0:ℝ) < (105000:ℝ) ^ B := Real.rpow_pos_of_pos (by norm_num) B
  have hlt : (14.28:ℝ) ^ (100:ℕ) < ((105000:ℝ) ^ B) ^ (100:ℕ) := by
    rw [pow100_eq]; norm_num
  exact lt_of_pow_lt_pow_left₀ 100 hy.le hlt

/-- Upper bound on the power-law factor: `105000 ** 0.23 < 14.29`. -/
lemma rpow_105000_ub : (105000:ℝ) ^ B < 14.29 := by
  have hlt : ((105000:ℝ) ^ B) ^ (100:ℕ) < (14.29:ℝ) ^ (100:ℕ) := by
    rw [pow100_eq]; norm_num
  exact lt_of_pow_lt_pow_left₀ 100 (by norm_num) hlt

/-- Claim C1, counterexample: at `DN = 0` the base viscosity is `0` and the
NLGI stage fails (Python `ZeroDivisionError`, modelled as `none`), so `DN = 0`
does not propagate through later stages without crashing, contrary to the
claim. -/
theorem C1_cex : select_NLGI (0:ℝ) (calc_base_viscosity 0) = none := by
  rw [calc_base_viscosity_zero]
  simp [select_NLGI]

/-- Claim C1, amended: `baseViscosity(0) = 0`, and `select_NLGI` fails with a
division-by-zero error exactly when `visc40 = 0` — there is no explicit guard
and no `Ks = 0` sentinel in the code, and the failure is the crash the claim
rules out. -/
theorem C1_amended :
    calc_base_viscosity 0 = 0 ∧
    (∀ DN v : ℝ, select_NLGI DN v = none ↔ v = 0) :=
  ⟨calc_base_viscosity_zero, fun DN v => select_NLGI_eq_none_iff DN v⟩

/-- Claim C2: for every input pair with `visc40 > 0`, `select_NLGI` computes
`Ks = DN / visc40` and returns the grade of the first ascending threshold
with `Ks ≤ threshold` (80 to "3", 160 to "2", 240 to "1", ∞ to "0"); the
exact boundaries at 80, 160, 240 behave as specified (80 gives "3", 80.0001
gives "2", and analogously); and the post-loop fallback is unreachable: every
`Ks` matches some entry of `NLGI_THRESHOLDS`. -/
theorem C2_NLGI_threshold_walk :
    (∀ DN visc40 : ℚ, 0 < visc40 →
      select_NLGI DN visc40 =
        some ((if DN / visc40 ≤ 80 then "3" else if DN / visc40 ≤ 160 then "2"
               else if DN / visc40 ≤ 240 then "1" else "0"), DN / visc40)) ∧
    (∀ Ks : ℚ, ∃ p ∈ NLGI_THRESHOLDS,
      walkNLGI Ks NLGI_THRESHOLDS = p.2 ∧ thrLE Ks p.1 = true) ∧
    select_NLGI (80:ℚ) 1 = some ("3", 80) ∧
    select_NLGI (80.0001:ℚ) 1 = some ("2", 80.0001) ∧
    select_NLGI (160:ℚ) 1 = some ("2", 160) ∧
    select_NLGI (160.0001:ℚ) 1 = some ("1", 160.0001) ∧
    select_NLGI (240:ℚ) 1 = some ("1", 240) ∧
    select_NLGI (240.0001:ℚ) 1 = some ("0", 240.0001) := by
  refine ⟨?_, ?_, ?_, ?_, ?_, ?_, ?_, ?_⟩
  · intro DN v hv
    rw [select_NLGI_pos DN v (ne_of_gt hv), walkNLGI_characterization]
  · intro Ks
    rw [walkNLGI_characterization]
    by_cases h1 : Ks ≤ 80
    · exact ⟨(some 80, "3"), by norm_num [NLGI_THRESHOLDS],
        by simp [h1], by simp [thrLE, decide_eq_true_eq, Rat.cast_ofNat, h1]⟩
    · by_cases h2 : Ks ≤ 160
      · exact ⟨(some 160, "2"), by norm_num [NLGI_THRESHOLDS],
          by simp [h1, h2], by simp [thrLE, decide_eq_true_eq, Rat.cast_ofNat, h2]⟩
      · by_cases h3 : Ks ≤ 240
        · exact ⟨(some 240, "1"), by norm_num [NLGI_THRESHOLDS],
            by simp [h1, h2, h3], by simp [thrLE, decide_eq_true_eq, Rat.cast_ofNat, h3]⟩
        · exact ⟨(none, "0"), by norm_num [NLGI_THRESHOLDS],
            by simp [h1, h2, h3], rfl⟩
  all_goals
    rw [select_NLGI_pos _ _ one_ne_zero, walkNLGI_characterization]
    norm_num

/-- Witness for claim C2: the visc40 > 0 hypothesis holds at visc40 = 1, and
there Ks = 80 gets grade "3". -/
theorem C2_NLGI_threshold_walk_witness :
    0 < (1:ℚ) ∧ select_NLGI (80:ℚ) 1 = some ("3", 80) := by
  refine ⟨by norm_num, ?_⟩
  have h := C2_NLGI_threshold_walk.1 80 1 (by norm_num)
  norm_num at h
  exact h

/-- Claim C3, counterexample: `calc_Dm` returns a value (the arithmetic mean)
on negative arguments instead of failing with `InvalidInput`. -/
theorem C3_cex : calc_Dm (-1 : ℚ) (-3) = -2 := by
  norm_num [calc_Dm]

/-- Claim C3, amended: `calc_Dm` returns `(d + D) / 2` for every input, with
no negativity validation anywhere in the function. -/
theorem C3_amended :
    (∀ d D : ℚ, calc_Dm d D = (d + D) / 2) ∧ calc_Dm (-5 : ℚ) (-7) = -6 :=
  ⟨fun _ _ => rfl, by norm_num [calc_Dm]⟩

/-- Claim C4: `select_thickener` is total, always returns one of the two
defined options (which are distinct), and recommends the calcium-sulfonate
complex if and only if `Agua` or `Vibración` is among the environment tags. -/
theorem C4_thickener_total :
    ∀ amb : List String,
      (select_thickener amb = "Sulfonato de calcio complejo" ∨
        select_thickener amb = "Complejo de litio") ∧
      ("Sulfonato de calcio complejo" : String) ≠ "Complejo de litio" ∧
      (select_thickener amb = "Sulfonato de calcio complejo" ↔
        ("Agua" ∈ amb ∨ "Vibración" ∈ amb)) ∧
      (select_thickener amb = "Complejo de litio" ↔
        ¬("Agua" ∈ amb ∨ "Vibración" ∈ amb)) := by
  intro amb
  by_cases h : "Agua" ∈ amb ∨ "Vibración" ∈ amb <;>
    simp [select_thickener, h]

/-- Claim C5: for every load class and mounting position the relubrication
interval equals the floor of `2000 / loadFactor * positionFactor`, is a
non-negative integer, and equals exactly 1000 for Alta (High) with Vertical. -/
theorem C5_interval :
    (∀ (c : Carga) (p : Posicion),
      relubrication_interval c p = ⌊(2000 / LOAD_FACTORS c) * pos_factors p⌋ ∧
      0 ≤ relubrication_interval c p) ∧
    relubrication_interval Carga.Alta Posicion.Vertical = 1000 := by
  constructor
  · intro c p
    cases c <;> cases p <;>
      exact ⟨by norm_num [relubrication_interval, pyInt, LOAD_FACTORS, pos_factors],
             by norm_num [relubrication_interval, pyInt, LOAD_FACTORS, pos_factors]⟩
  · norm_num [relubrication_interval, pyInt, LOAD_FACTORS, pos_factors]

/-- Claim C6, counterexample: the base viscosity at `DN = 105000` is below
10.1 — not approximately 11.0 — because `105000 ** 0.23` is below 14.3, not
approximately 15.77 as the claim computes. -/
theorem C6_cex :
    calc_base_viscosity 105000 < 10.1 ∧ (105000:ℝ) ^ B < 14.3 := by
  have hu := rpow_105000_ub
  have hv : calc_base_viscosity 105000 = 0.7 * (105000:ℝ) ^ B := by
    norm_num [calc_base_viscosity, A]
  constructor
  · rw [hv]; linarith
  · linarith

/-- Claim C6, amended: for `d = 50`, `D = 90`, `n = 1500` with load Media:
`Dm = 70` and `DN = 105000` exactly; `visc40` is approximately 10.0 (between
9.99 and 10.01), not 11.0; `viscCorr` is approximately 12.0, not 13.2; `Ks`
is approximately 10500 (between 10490 and 10510), not 9545; and the threshold
grade is "0" since `Ks > 240`. -/
theorem C6_scenario :
    calc_Dm (50:ℝ) 90 = 70 ∧
    calc_DN (1500:ℝ) 70 = 105000 ∧
    9.99 < calc_base_viscosity 105000 ∧ calc_base_viscosity 105000 < 10.01 ∧
    11.9 < adjust_for_load (calc_base_viscosity 105000) Carga.Media ∧
    adjust_for_load (calc_base_viscosity 105000) Carga.Media < 12.1 ∧
    (∃ Ks : ℝ, select_NLGI (105000:ℝ) (calc_base_viscosity 105000) = some ("0", Ks) ∧
      10490 < Ks ∧ Ks < 10510) := by
  have hl := rpow_105000_lb
  have hu := rpow_105000_ub
  have hv : calc_base_viscosity 105000 = 0.7 * (105000:ℝ) ^ B := by
    norm_num [calc_base_viscosity, A]
  have hv_lb : (9.99:ℝ) < calc_base_viscosity 105000 := by rw [hv]; linarith
  have hv_lb2 : (9.996:ℝ) < calc_base_viscosity 105000 := by rw [hv]; linarith
  have hv_ub : calc_base_viscosity 105000 < (10.003:ℝ) := by rw [hv]; linarith
  have hvpos : (0:ℝ) < calc_base_viscosity 105000 := by linarith
  have hadj : adjust_for_load (calc_base_viscosity 105000) Carga.Media =
      calc_base_viscosity 105000 * 1.2 := by
    norm_num [adjust_for_load, LOAD_FACTORS]
  have hKlb : (10490:ℝ) < 105000 / calc_base_viscosity 105000 := by
    rw [lt_div_iff₀ hvpos]; nlinarith
  have hKub : (105000:ℝ) / calc_base_viscosity 105000 < 10510 := by
    rw [div_lt_iff₀ hvpos]; nlinarith
  refine ⟨by norm_num [calc_Dm], by norm_num [calc_DN], hv_lb, by linarith, ?_, ?_, ?_⟩
  · rw [hadj]; nlinarith
  · rw [hadj]; nlinarith
  · rw [select_NLGI_pos _ _ (ne_of_gt hvpos), walkNLGI_characterization]
    rw [if_neg (by linarith), if_neg (by linarith), if_neg (by linarith)]
    exact ⟨105000 / calc_base_viscosity 105000, rfl, hKlb, hKub⟩

/-- Claim C7: under the threshold policy, for fixed `visc40 > 0`, increasing
`DN` never increases the returned NLGI grade: the grade is non-increasing in
`Ks = DN / visc40`. -/
theorem C7_NLGI_monotone :
    ∀ (v DN₁ DN₂ : ℚ), 0 < v → DN₁ ≤ DN₂ →
      ∀ g₁ K₁ g₂ K₂, select_NLGI DN₁ v = some (g₁, K₁) →
        select_NLGI DN₂ v = some (g₂, K₂) →
        NLGI_grade_num g₂ ≤ NLGI_grade_num g₁ := by
  intro v DN₁ DN₂ hv hle g₁ K₁ g₂ K₂ h₁ h₂
  rw [select_NLGI_pos DN₁ v (ne_of_gt hv)] at h₁
  rw [select_NLGI_pos DN₂ v (ne_of_gt hv)] at h₂
  simp only [Option.some.injEq, Prod.mk.injEq] at h₁ h₂
  obtain ⟨hg₁, -⟩ := h₁
  obtain ⟨hg₂, -⟩ := h₂
  subst hg₁ hg₂
  rw [walkNLGI_characterization, walkNLGI_characterization]
  have hK : DN₁ / v ≤ DN₂ / v := by gcongr
  split_ifs <;> first
    | (exfalso; linarith)
    | simp [NLGI_grade_num]

/-- Witness for claim C7: visc40 = 1 > 0, DN grows from 100 to 200, and the
grade drops from "2" to "1" — it does not increase. -/
theorem C7_NLGI_monotone_witness :
    0 < (1:ℚ) ∧ (100:ℚ) ≤ 200 ∧ NLGI_grade_num ("1") ≤ NLGI_grade_num ("2") := by
  refine ⟨by norm_num, by norm_num, ?_⟩
  refine C7_NLGI_monotone 1 100 200 (by norm_num) (by norm_num) ("2") 100 ("1") 200 ?_ ?_
  · rw [select_NLGI_pos _ _ one_ne_zero, walkNLGI_characterization]
    norm_num
  · rw [select_NLGI_pos _ _ one_ne_zero, walkNLGI_characterization]
    norm_num

/-- Claim C8: the first "Calcular" block always raises an exception before
producing any result — the doubled call on the load-correction step applies a
float as a function, a `TypeError` — while the second block's single-call
form computes `visc_corr = adjust_for_load(visc40, carga)` as intended. -/
theorem C8_first_block_raises :
    (∀ (rpm d D : ℝ) (carga : Carga) (posicion : Posicion) (ambs : List String),
      calc_block_first rpm d D carga posicion ambs = Except.error PyErr.typeError) ∧
    (∀ (tipo : String) (temp rpm d D : ℝ) (carga : Carga) (posicion : Posicion)
        (ambs : List String),
      (calc_results tipo temp rpm d D carga posicion ambs).visc_corr =
        adjust_for_load (calc_base_viscosity (calc_DN rpm (calc_Dm d D))) carga) :=
  ⟨fun _ _ _ _ _ _ => rfl, fun _ _ _ _ _ _ _ _ => rfl⟩

/-- Claim C9: neither the bearing-type tag nor the operating temperature
affects any derived output of the calculation block — two runs differing only
in `tipo` and `temp` produce identical `Dm`, `DN`, `visc40`, `visc_corr`,
NLGI grade and `Ks`, thickener recommendation, and interval. -/
theorem C9_tipo_temp_no_influence :
    ∀ (tipo tipo2 : String) (temp temp2 rpm d D : ℝ) (carga : Carga)
      (posicion : Posicion) (ambs : List String),
      calc_results tipo temp rpm d D carga posicion ambs =
        calc_results tipo2 temp2 rpm d D carga posicion ambs :=
  fun _ _ _ _ _ _ _ _ _ _ => rfl

/-- Claim C10: with strictly positive `d`, `D` and `n`, the base viscosity
`0.7 * (n * (d + D) / 2) ** 0.23` is strictly positive, so the division
`Ks = DN / visc40` inside `select_NLGI` never hits its division-by-zero
branch. -/
theorem C10_positive_inputs_no_div_zero :
    ∀ d D n : ℝ, 0 < d → 0 < D → 0 < n →
      0 < calc_base_viscosity (calc_DN n (calc_Dm d D)) ∧
      (select_NLGI (calc_DN n (calc_Dm d D))
        (calc_base_viscosity (calc_DN n (calc_Dm d D)))).isSome = true := by
  intro d D n hd hD hn
  have hDm : 0 < calc_Dm d D := by
    unfold calc_Dm; linarith
  have hDN : 0 < calc_DN n (calc_Dm d D) := mul_pos hn hDm
  have hv : 0 < calc_base_viscosity (calc_DN n (calc_Dm d D)) := by
    unfold calc_base_viscosity
    have hA : (0:ℝ) < A := by norm_num [A]
    exact mul_pos hA (Real.rpow_pos_of_pos hDN B)
  refine ⟨hv, ?_⟩
  rw [select_NLGI_pos _ _ (ne_of_gt hv)]
  rfl

/-- Witness for claim C10 at the default widget values d = 50, D = 90,
n = 1500. -/
theorem C10_positive_inputs_no_div_zero_witness :
    (0:ℝ) < 50 ∧ (0:ℝ) < 90 ∧ (0:ℝ) < 1500 ∧
    (0 < calc_base_viscosity (calc_DN 1500 (calc_Dm 50 90)) ∧
      (select_NLGI (calc_DN 1500 (calc_Dm 50 90))
        (calc_base_viscosity (calc_DN 1500 (calc_Dm 50 90)))).isSome = true) :=
  ⟨by norm_num, by norm_num, by norm_num,
    C10_positive_inputs_no_div_zero 50 90 1500 (by norm_num) (by norm_num) (by norm_num)⟩

end AppRodamientos
